import Mathlib

/-!
Verification development for the kratt pull-request workflow engine.

The Go package `worker` orchestrates two workflows (`ProcessPR`, `Start`)
over three injected capabilities (`LocalGit`, `GitHub`, `CommandRunner`).
We embed the orchestration shallowly: a capability environment `Caps`
assigns a deterministic response to every capability call, and each
workflow function returns the trace of capability calls it performed
together with its terminal result.  Fallible Go functions returning
`error` become `Except String`; a Go slice index that can panic is
modelled by an explicit `panicked` outcome.
-/

namespace Kratt

/-- One capability call performed by the workflow engine, as recorded in a
run trace.  Constructors mirror the methods of the Go interfaces
`GitHub`, `LocalGit` and `CommandRunner`. -/
inductive Event where
  | getPRInfo (prNumber : Int)
  | checkWorktreeExists (branch : String)
  | getWorktreePath (branch : String)
  | createWorktree (branch path : String)
  | changeDirectory (path : String)
  | runWithStdin (stdin command : String) (args : List String)
  | runWithOutput (command : String) (args : List String)
  | postComment (prNumber : Int) (body : String)
  | commitAndPush (message : String)
  | createBranch (branchName : String)
  | writeFile (path content : String)
  | pushBranchUpstream (branchName : String)
  | createPR (title description : String)
  deriving DecidableEq, Repr

/-- Terminal outcome of a workflow run: Go `nil` error, a non-nil `error`
(with the wrapped message), or a runtime panic (out-of-bounds slice
index). -/
inductive RunResult where
  | ok
  | err (msg : String)
  | panicked
  deriving DecidableEq, Repr

/-- Deterministic responses of the three injected capabilities.
`runWithOutput` mirrors Go's `RunWithOutput` which returns captured
output bytes together with an optional error; all other fallible calls
are `Except String`. -/
structure Caps where
  getPRInfo : Int → Except String String
  checkWorktreeExists : String → Except String Bool
  getWorktreePath : String → Except String String
  createWorktree : String → String → Except String Unit
  changeDirectory : String → Except String Unit
  commitAndPush : String → Except String Unit
  postComment : Int → String → Except String Unit
  runWithStdin : String → String → List String → Except String Unit
  runWithOutput : String → List String → String × Option String
  createBranch : String → Except String Unit
  writeFile : String → String → Except String Unit
  pushBranchUpstream : String → Except String Unit
  createPR : String → String → Except String Unit

/-- The `Worker` configuration struct (worker.go lines 12–23).  The
`Deadline` field only feeds the `context.WithTimeout` call, which our
embedding does not model temporally. -/
structure Worker where
  Instructions : String
  AgentCommand : List String
  LintCommand : List String
  TestCommand : List String
  Deadline : Nat

/-! ### The branch-extraction regular expressions (worker.go lines 99–122)

`extractBranchFromPRInfo` tries three Go regexes in order:
`"headRefName":\s*"([^"]+)"`, then `(?i)branch:\s*([^\s\n]+)`, then
`(?i)head:\s*([^\s\n]+)`, returning the first capture group of the
leftmost match.  We implement each pattern as an anchored matcher tried
at every suffix, left to right, which coincides with RE2's leftmost
match for these patterns (each has a fixed literal head, and the
greedy-quantifier splits are forced by the character classes). -/

/-- Go regexp's `\s` class: `[\t\n\f\r ]`. -/
def goRegexSpace (c : Char) : Bool :=
  c = ' ' || c = '\t' || c = '\n' || c = '\x0c' || c = '\r'

/-- Drop `pre` from the front of `s` when it is literally there. -/
def stripPrefixL (pre s : List Char) : Option (List Char) :=
  if pre.isPrefixOf s then some (s.drop pre.length) else none

/-- Case-insensitive variant of `stripPrefixL` (for the `(?i)` patterns);
`pre` is given lowercase. -/
def stripPrefixCI : List Char → List Char → Option (List Char)
  | [], s => some s
  | _ :: _, [] => none
  | p :: ps, c :: cs => if c.toLower = p then stripPrefixCI ps cs else none

/-- Anchored match of `"headRefName":\s*"([^"]+)"` at the front of `s`,
returning the capture group. -/
def matchHeadRefNameAt (s : List Char) : Option (List Char) := do
  let s1 ← stripPrefixL "\"headRefName\":".data s
  let s2 := s1.dropWhile goRegexSpace
  let s3 ← stripPrefixL "\"".data s2
  let cap := s3.takeWhile (fun c => c ≠ '"')
  let rest := s3.dropWhile (fun c => c ≠ '"')
  if cap.isEmpty then none
  else match rest with
    | '"' :: _ => some cap
    | _ => none

/-- Anchored match of `(?i)lit\s*([^\s\n]+)` at the front of `s` (with
`lit` one of `branch:` / `head:`, lowercase), returning the capture
group.  `[^\s\n]` equals the complement of `\s` since `\n ∈ \s`. -/
def matchKeywordAt (lit : List Char) (s : List Char) : Option (List Char) := do
  let s1 ← stripPrefixCI lit s
  let s2 := s1.dropWhile goRegexSpace
  let cap := s2.takeWhile (fun c => ¬ goRegexSpace c)
  if cap.isEmpty then none else some cap

/-- Try an anchored matcher at every suffix, leftmost first. -/
def scanFirst (f : List Char → Option (List Char)) : List Char → Option (List Char)
  | [] => f []
  | c :: rest =>
    match f (c :: rest) with
    | some cap => some cap
    | none => scanFirst f rest

/-- `Worker.extractBranchFromPRInfo` (worker.go lines 99–122). -/
def extractBranchFromPRInfo (prInfo : String) : Except String String :=
  match scanFirst matchHeadRefNameAt prInfo.data with
  | some cap => .ok (String.mk cap)
  | none =>
    match scanFirst (matchKeywordAt "branch:".data) prInfo.data with
    | some cap => .ok (String.mk cap)
    | none =>
      match scanFirst (matchKeywordAt "head:".data) prInfo.data with
      | some cap => .ok (String.mk cap)
      | none => .error "could not extract branch name from PR info"

/-- `Worker.generatePrompt` (worker.go lines 125–133). -/
def generatePrompt (w : Worker) (prInfo : String) : String :=
  w.Instructions ++ "\n\n" ++ "<pull-request>\n" ++ prInfo ++ "\n</pull-request>"

/-- One check section of `Worker.formatResultsComment`: the header line,
the pass/fail marker (with the error text fenced on failure), then the
captured output fenced when non-empty.  The Go code writes the two
sections inline with the same statement sequence. -/
def checkSection (header : String) (output : String) (err : Option String) : String :=
  header ++
  (match err with
   | some e => "❌ **Failed**\n" ++ "```\n" ++ e ++ "\n```\n"
   | none => "✅ **Passed**\n") ++
  (if output.length > 0 then "```\n" ++ output ++ "\n```\n" else "")

/-- `Worker.formatResultsComment` (worker.go lines 136–178). -/
def formatResultsComment (lintOutput : String) (lintErr : Option String)
    (testOutput : String) (testErr : Option String) : String :=
  "## Kratt Worker Results\n\n" ++
  checkSection "### Lint Results\n" lintOutput lintErr ++ "\n" ++
  checkSection "### Test Results\n" testOutput testErr

/-- The tail of `ProcessPR` from worker.go line 56 on (after the
worktree exists): resolve the worktree path again, change directory,
run the agent, run lint and test, post the results comment, commit and
push.  `evs` is the trace accumulated by the steps before this point.
The unguarded Go slice indexings `AgentCommand[0]`, `LintCommand[0]`,
`TestCommand[0]` surface as the `panicked` outcome when the vector is
empty. -/
def afterWorktree (w : Worker) (g : Caps) (prNumber : Int) (prInfo branch : String)
    (evs : List Event) : List Event × RunResult :=
  match g.getWorktreePath branch with
  | .error e =>
    (evs ++ [.getWorktreePath branch], .err ("failed to get worktree path: " ++ e))
  | .ok path =>
    match g.changeDirectory path with
    | .error e =>
      (evs ++ [.getWorktreePath branch, .changeDirectory path],
       .err ("failed to change directory: " ++ e))
    | .ok _ =>
      match w.AgentCommand with
      | [] => (evs ++ [.getWorktreePath branch, .changeDirectory path], .panicked)
      | ac :: aargs =>
        match g.runWithStdin (generatePrompt w prInfo) ac aargs with
        | .error e =>
          (evs ++ [.getWorktreePath branch, .changeDirectory path,
                   .runWithStdin (generatePrompt w prInfo) ac aargs],
           .err ("failed to run agent: " ++ e))
        | .ok _ =>
          match w.LintCommand with
          | [] =>
            (evs ++ [.getWorktreePath branch, .changeDirectory path,
                     .runWithStdin (generatePrompt w prInfo) ac aargs], .panicked)
          | lc :: largs =>
            match w.TestCommand with
            | [] =>
              (evs ++ [.getWorktreePath branch, .changeDirectory path,
                       .runWithStdin (generatePrompt w prInfo) ac aargs,
                       .runWithOutput lc largs], .panicked)
            | tc :: targs =>
              match g.postComment prNumber
                  (formatResultsComment (g.runWithOutput lc largs).1
                    (g.runWithOutput lc largs).2 (g.runWithOutput tc targs).1
                    (g.runWithOutput tc targs).2) with
              | .error e =>
                (evs ++ [.getWorktreePath branch, .changeDirectory path,
                         .runWithStdin (generatePrompt w prInfo) ac aargs,
                         .runWithOutput lc largs, .runWithOutput tc targs,
                         .postComment prNumber
                           (formatResultsComment (g.runWithOutput lc largs).1
                             (g.runWithOutput lc largs).2 (g.runWithOutput tc targs).1
                             (g.runWithOutput tc targs).2)],
                 .err ("failed to post comment: " ++ e))
              | .ok _ =>
                match g.commitAndPush "Automated changes from kratt worker" with
                | .error e =>
                  (evs ++ [.getWorktreePath branch, .changeDirectory path,
                           .runWithStdin (generatePrompt w prInfo) ac aargs,
                           .runWithOutput lc largs, .runWithOutput tc targs,
                           .postComment prNumber
                             (formatResultsComment (g.runWithOutput lc largs).1
                               (g.runWithOutput lc largs).2 (g.runWithOutput tc targs).1
                               (g.runWithOutput tc targs).2),
                           .commitAndPush "Automated changes from kratt worker"],
                   .err ("failed to commit and push: " ++ e))
                | .ok _ =>
                  (evs ++ [.getWorktreePath branch, .changeDirectory path,
                           .runWithStdin (generatePrompt w prInfo) ac aargs,
                           .runWithOutput lc largs, .runWithOutput tc targs,
                           .postComment prNumber
                             (formatResultsComment (g.runWithOutput lc largs).1
                               (g.runWithOutput lc largs).2 (g.runWithOutput tc targs).1
                               (g.runWithOutput tc targs).2),
                           .commitAndPush "Automated changes from kratt worker"], .ok)

/-- `Worker.ProcessPR` (worker.go lines 26–96): the run's capability-call
trace and terminal result.  Fetch the PR info, extract the branch,
ensure a worktree (creating one only when the existence check says there
is none), then continue with `afterWorktree`. -/
def processPR (w : Worker) (g : Caps) (prNumber : Int) : List Event × RunResult :=
  match g.getPRInfo prNumber with
  | .error e => ([.getPRInfo prNumber], .err ("failed to get PR info: " ++ e))
  | .ok prInfo =>
    match extractBranchFromPRInfo prInfo with
    | .error e =>
      ([.getPRInfo prNumber], .err ("failed to extract branch from PR info: " ++ e))
    | .ok branch =>
      match g.checkWorktreeExists branch with
      | .error e =>
        ([.getPRInfo prNumber, .checkWorktreeExists branch],
         .err ("failed to check worktree existence: " ++ e))
      | .ok true =>
        afterWorktree w g prNumber prInfo branch
          [.getPRInfo prNumber, .checkWorktreeExists branch]
      | .ok false =>
        match g.getWorktreePath branch with
        | .error e =>
          ([.getPRInfo prNumber, .checkWorktreeExists branch, .getWorktreePath branch],
           .err ("failed to get worktree path: " ++ e))
        | .ok path =>
          match g.createWorktree branch path with
          | .error e =>
            ([.getPRInfo prNumber, .checkWorktreeExists branch, .getWorktreePath branch,
              .createWorktree branch path],
             .err ("failed to create worktree: " ++ e))
          | .ok _ =>
            afterWorktree w g prNumber prInfo branch
              [.getPRInfo prNumber, .checkWorktreeExists branch, .getWorktreePath branch,
               .createWorktree branch path]

/-- `Worker.Start` (worker.go lines 181–216). -/
def start (g : Caps) (branchName instruction : String) : List Event × RunResult :=
  match g.createBranch branchName with
  | .error e => ([.createBranch branchName], .err ("failed to create branch: " ++ e))
  | .ok _ =>
    let filePath := "docs/" ++ branchName ++ "-instructions.md"
    match g.writeFile filePath instruction with
    | .error e =>
      ([.createBranch branchName, .writeFile filePath instruction],
       .err ("failed to write instructions file: " ++ e))
    | .ok _ =>
      let commitMsg := "Add instructions for " ++ branchName
      match g.commitAndPush commitMsg with
      | .error e =>
        ([.createBranch branchName, .writeFile filePath instruction,
          .commitAndPush commitMsg],
         .err ("failed to commit instructions file: " ++ e))
      | .ok _ =>
        match g.pushBranchUpstream branchName with
        | .error e =>
          ([.createBranch branchName, .writeFile filePath instruction,
            .commitAndPush commitMsg, .pushBranchUpstream branchName],
           .err ("failed to push branch upstream: " ++ e))
        | .ok _ =>
          let title := "Implement " ++ branchName
          let description := "Study docs/" ++ branchName ++
            "-instructions.md and make a list of necessary implementation steps in docs/" ++
            branchName ++ "-implementation-status.md"
          match g.createPR title description with
          | .error e =>
            ([.createBranch branchName, .writeFile filePath instruction,
              .commitAndPush commitMsg, .pushBranchUpstream branchName,
              .createPR title description],
             .err ("failed to create pull request: " ++ e))
          | .ok _ =>
            ([.createBranch branchName, .writeFile filePath instruction,
              .commitAndPush commitMsg, .pushBranchUpstream branchName,
              .createPR title description], .ok)

/-! ### The real `GitRunner` adapter (git implementation file)

`GitRunner` shells out to `git`.  We model the subprocess layer by an
environment `GitCmdEnv` assigning to each argument vector the result of
`cmd.Run()` (exit status only) and of `cmd.Output()` (captured stdout),
and each `GitRunner` method returns the list of commands it invoked
together with its result. -/

/-- Responses of the underlying `git` subprocesses: `run` models
`exec.Command(...).Run()`, `output` models `exec.Command(...).Output()`. -/
structure GitCmdEnv where
  run : List String → Except String Unit
  output : List String → Except String String

/-- Go `unicode.IsSpace` on the characters relevant to `strings.TrimSpace`:
ASCII whitespace plus U+0085 and U+00A0. -/
def goIsSpace (c : Char) : Bool :=
  c = ' ' || c = '\t' || c = '\n' || c = '\x0b' || c = '\x0c' || c = '\r' ||
  c = '\x85' || c = '\xa0'

/-- `strings.TrimSpace`. -/
def goTrimSpace (s : String) : String :=
  String.mk (((s.data.dropWhile goIsSpace).reverse.dropWhile goIsSpace).reverse)

/-- The newline separator character. -/
def newlineChar : Char := Char.ofNat 10

/-- The `/` separator character. -/
def slashChar : Char := Char.ofNat 47

/-- `strings.Split` with a one-character separator, over character
lists (empty pieces are kept, as in Go). -/
def splitOnChar (sep : Char) : List Char → List (List Char)
  | [] => [[]]
  | c :: rest =>
    if c = sep then [] :: splitOnChar sep rest
    else
      match splitOnChar sep rest with
      | [] => [[c]]
      | l :: ls => (c :: l) :: ls

/-- `strings.Contains`: `t` occurs as a contiguous substring of `s`. -/
def containsSub (s t : List Char) : Bool :=
  s.tails.any (fun suffix => t.isPrefixOf suffix)

/-- One line of the porcelain worktree listing matches when it starts
with `"branch "` and contains the branch name anywhere. -/
def worktreeLineMatches (branch line : List Char) : Bool :=
  "branch ".data.isPrefixOf line && containsSub line branch

/-- The line scan inside `GitRunner.CheckWorktreeExists`: split the
listing on newlines and accept any matching line. -/
def worktreeListingHasBranch (listing branch : String) : Bool :=
  (splitOnChar newlineChar listing.data).any (worktreeLineMatches branch.data)

/-- `GitRunner.CheckWorktreeExists` (git implementation, lines 54–68):
commands invoked and result. -/
def gitCheckWorktreeExists (e : GitCmdEnv) (branch : String) :
    List (List String) × Except String Bool :=
  match e.output ["git", "worktree", "list", "--porcelain"] with
  | .error err =>
    ([["git", "worktree", "list", "--porcelain"]],
     .error ("failed to list worktrees: " ++ err))
  | .ok listing =>
    ([["git", "worktree", "list", "--porcelain"]],
     .ok (worktreeListingHasBranch listing branch))

/-- `GitRunner.CommitAndPush` (git implementation, lines 88–128):
`git add .`; `git status --porcelain`; stop successfully when the status
output trims to empty; otherwise `git commit -m`, `git branch
--show-current`, and `git push -u origin <branch>`. -/
def gitCommitAndPush (e : GitCmdEnv) (message : String) :
    List (List String) × Except String Unit :=
  match e.run ["git", "add", "."] with
  | .error err => ([["git", "add", "."]], .error ("failed to add changes: " ++ err))
  | .ok _ =>
    match e.output ["git", "status", "--porcelain"] with
    | .error err =>
      ([["git", "add", "."], ["git", "status", "--porcelain"]],
       .error ("failed to check git status: " ++ err))
    | .ok statusOutput =>
      if (goTrimSpace statusOutput).length = 0 then
        ([["git", "add", "."], ["git", "status", "--porcelain"]], .ok ())
      else
        match e.run ["git", "commit", "-m", message] with
        | .error err =>
          ([["git", "add", "."], ["git", "status", "--porcelain"],
            ["git", "commit", "-m", message]],
           .error ("failed to commit changes: " ++ err))
        | .ok _ =>
          match e.output ["git", "branch", "--show-current"] with
          | .error err =>
            ([["git", "add", "."], ["git", "status", "--porcelain"],
              ["git", "commit", "-m", message], ["git", "branch", "--show-current"]],
             .error ("failed to get current branch: " ++ err))
          | .ok branchOutput =>
            let branchName := goTrimSpace branchOutput
            match e.run ["git", "push", "-u", "origin", branchName] with
            | .error err =>
              ([["git", "add", "."], ["git", "status", "--porcelain"],
                ["git", "commit", "-m", message], ["git", "branch", "--show-current"],
                ["git", "push", "-u", "origin", branchName]],
               .error ("failed to push changes: " ++ err))
            | .ok _ =>
              ([["git", "add", "."], ["git", "status", "--porcelain"],
                ["git", "commit", "-m", message], ["git", "branch", "--show-current"],
                ["git", "push", "-u", "origin", branchName]], .ok ())

/-- Remainder of `s` after the first occurrence of `pat` (`none` when
`pat` does not occur). -/
def afterFirstSub (pat : List Char) : List Char → Option (List Char)
  | [] => if pat.isPrefixOf ([] : List Char) then some [] else none
  | c :: rest =>
    if pat.isPrefixOf (c :: rest) then some ((c :: rest).drop pat.length)
    else afterFirstSub pat rest

/-- Models `net/url.Parse` restricted to what `GetGitHubRepository` reads
from it (`.Host` and `.Path`) on git-remote-shaped inputs: for a string
containing `://` the host is the segment up to the next `/` and the path
is the rest; a string without `://` parses as an opaque/relative URL with
empty host. -/
def urlHostPath (s : String) : String × String :=
  match afterFirstSub "://".data s.data with
  | none => ("", s)
  | some rest =>
    (String.mk (rest.takeWhile (fun c => c ≠ '/')),
     String.mk (rest.dropWhile (fun c => c ≠ '/')))

/-- `parseGitHubPath` (git implementation, lines 188–201): drop one
leading `/`, strip a trailing `.git`, and split on `/` into owner and
repo. -/
def parseGitHubPath (path : String) : Except String (String × String) :=
  let p1 := if "/".data.isPrefixOf path.data then path.data.drop 1 else path.data
  let p2 := if ".git".data.isSuffixOf p1 then p1.take (p1.length - 4) else p1
  match splitOnChar slashChar p2 with
  | owner :: repo :: _ => .ok (String.mk owner, String.mk repo)
  | _ => .error ("invalid GitHub path format: " ++ String.mk p2)

/-- The URL-resolution core of `GitRunner.GetGitHubRepository` (git
implementation, lines 166–185), applied to the trimmed remote URL:
SSH-style `git@github.com:` prefix first, otherwise parse as a URL and
require host `github.com`. -/
def resolveGitHubRemote (remoteURL : String) : Except String (String × String) :=
  if "git@github.com:".data.isPrefixOf remoteURL.data then
    parseGitHubPath (String.mk (remoteURL.data.drop "git@github.com:".data.length))
  else
    let hp := urlHostPath remoteURL
    if hp.1 = "github.com" then parseGitHubPath hp.2
    else .error ("not a GitHub repository: " ++ remoteURL)

/-- `GitRunner.GetGitHubRepository` (git implementation, lines 159–185):
fetch the `origin` remote URL, trim it, and resolve owner/repo. -/
def gitGetGitHubRepository (e : GitCmdEnv) :
    List (List String) × Except String (String × String) :=
  match e.output ["git", "remote", "get-url", "origin"] with
  | .error err =>
    ([["git", "remote", "get-url", "origin"]],
     .error ("failed to get remote origin URL: " ++ err))
  | .ok out =>
    ([["git", "remote", "get-url", "origin"]], resolveGitHubRemote (goTrimSpace out))

/-! ### Trace vocabulary and general run lemmas -/

/-- `t` occurs as a contiguous substring of `s` (stated over the
underlying character lists). -/
def Sub (t s : String) : Prop := ∃ l r : List Char, s.data = l ++ t.data ++ r

/-- Capability calls that `ProcessPR` can record before the agent /
lint / test / report / commit phase. -/
def earlyEvent : Event → Prop
  | .runWithStdin _ _ _ => False
  | .runWithOutput _ _ => False
  | .postComment _ _ => False
  | .commitAndPush _ => False
  | _ => True

/-- Capability calls that only the `afterWorktree` tail can append: in
particular neither worktree checks nor worktree creations. -/
def lateEvent : Event → Prop
  | .getWorktreePath _ => True
  | .changeDirectory _ => True
  | .runWithStdin _ _ _ => True
  | .runWithOutput _ _ => True
  | .postComment _ _ => True
  | .commitAndPush _ => True
  | _ => False

/-- Boolean discriminator for comment-posting events. -/
def isPostCommentEv : Event → Bool
  | .postComment _ _ => true
  | _ => false

/-- Boolean discriminator for worktree-creation events. -/
def isCreateWorktreeEv : Event → Bool
  | .createWorktree _ _ => true
  | _ => false

/-- The results-comment body a run posts, given the configured lint and
test vectors: `formatResultsComment` applied to the two captured
runs. -/
abbrev runBody (g : Caps) (lc : String) (largs : List String)
    (tc : String) (targs : List String) : String :=
  formatResultsComment (g.runWithOutput lc largs).1 (g.runWithOutput lc largs).2
    (g.runWithOutput tc targs).1 (g.runWithOutput tc targs).2

/-! ### Concrete fixtures for witness runs -/

/-- A worker configuration with singleton agent/lint/test commands. -/
def wFix : Worker :=
  { Instructions := "I", AgentCommand := ["agent"], LintCommand := ["lint"],
    TestCommand := ["test"], Deadline := 30 }

/-- `wFix` with an empty agent command vector. -/
def wEmptyAgent : Worker := { wFix with AgentCommand := [] }

/-- `wFix` with an empty lint command vector. -/
def wEmptyLint : Worker := { wFix with LintCommand := [] }

/-- `wFix` with an empty test command vector. -/
def wEmptyTest : Worker := { wFix with TestCommand := [] }

/-- Capability responses where every call succeeds: the PR info carries
`branch: b`, no worktree exists yet, lint and test emit `out` and pass. -/
def capsOk : Caps where
  getPRInfo := fun _ => .ok "branch: b"
  checkWorktreeExists := fun _ => .ok false
  getWorktreePath := fun _ => .ok "/wt"
  createWorktree := fun _ _ => .ok ()
  changeDirectory := fun _ => .ok ()
  commitAndPush := fun _ => .ok ()
  postComment := fun _ _ => .ok ()
  runWithStdin := fun _ _ _ => .ok ()
  runWithOutput := fun _ _ => ("out", none)
  createBranch := fun _ => .ok ()
  writeFile := fun _ _ => .ok ()
  pushBranchUpstream := fun _ => .ok ()
  createPR := fun _ _ => .ok ()

/-- `capsOk` with an agent runner that always fails. -/
def capsAgentFail : Caps :=
  { capsOk with runWithStdin := fun _ _ _ => .error "agent boom" }

/-- `capsOk` with a failing lint command and a passing test command. -/
def capsLintFail : Caps :=
  { capsOk with runWithOutput := fun c _ =>
      if c = "lint" then ("lintout", some "lint boom") else ("testout", none) }

/-- `capsOk` with a hosting service that rejects comment posts. -/
def capsPostFail : Caps :=
  { capsOk with postComment := fun _ _ => .error "post boom" }

/-- `capsOk` with PR info from which no branch is extractable. -/
def capsNoBranch : Caps :=
  { capsOk with getPRInfo := fun _ => .ok "no extractable name" }

/-- `capsOk` reporting that the worktree already exists. -/
def capsWorktreeExists : Caps :=
  { capsOk with checkWorktreeExists := fun _ => .ok true }

/-- Git subprocess responses where every command succeeds and every
captured output is empty. -/
def gitEnvOk : GitCmdEnv where
  run := fun _ => .ok ()
  output := fun _ => .ok ""

/-- Git subprocess responses whose captured output is always `u`. -/
def gitEnvOutput (u : String) : GitCmdEnv where
  run := fun _ => .ok ()
  output := fun _ => .ok u

lemma countP_postComment_eq_zero (evs : List Event)
    (hq : ∀ ev ∈ evs, earlyEvent ev) : evs.countP isPostCommentEv = 0 :=
  List.countP_eq_zero.mpr (fun ev h => by
    have := hq ev h; cases ev <;> simp_all [earlyEvent, isPostCommentEv])

lemma countP_createWorktree_eq_zero (suf : List Event)
    (hl : ∀ ev ∈ suf, lateEvent ev) : suf.countP isCreateWorktreeEv = 0 :=
  List.countP_eq_zero.mpr (fun ev h => by
    have := hl ev h; cases ev <;> simp_all [lateEvent, isCreateWorktreeEv])

/-- The `afterWorktree` tail only ever appends `lateEvent`s to the trace
it is given: it never checks for or creates a worktree. -/
lemma afterWorktree_shape (w : Worker) (g : Caps) (pr : Int)
    (prInfo branch : String) (evs : List Event) :
    ∃ suf, (afterWorktree w g pr prInfo branch evs).1 = evs ++ suf ∧
      ∀ ev ∈ suf, lateEvent ev := by
  unfold afterWorktree
  split
  · exact ⟨_, rfl, by simp [lateEvent]⟩
  split
  · exact ⟨_, rfl, by simp [lateEvent]⟩
  split
  · exact ⟨_, rfl, by simp [lateEvent]⟩
  split
  · exact ⟨_, rfl, by simp [lateEvent]⟩
  split
  · exact ⟨_, rfl, by simp [lateEvent]⟩
  split
  · exact ⟨_, rfl, by simp [lateEvent]⟩
  split
  · exact ⟨_, rfl, by simp [lateEvent]⟩
  split
  · exact ⟨_, rfl, by simp [lateEvent]⟩
  · exact ⟨_, rfl, by simp [lateEvent]⟩

/-- If the worker's three command vectors are non-empty, the
`afterWorktree` tail cannot panic. -/
lemma afterWorktree_noPanic (w : Worker) (g : Caps) (pr : Int)
    (prInfo branch : String) (evs : List Event)
    (hA : w.AgentCommand ≠ []) (hL : w.LintCommand ≠ []) (hT : w.TestCommand ≠ []) :
    (afterWorktree w g pr prInfo branch evs).2 ≠ .panicked := by
  unfold afterWorktree
  split
  · simp
  split
  · simp
  split
  · simp_all
  split
  · simp
  split
  · simp_all
  split
  · simp_all
  split
  · simp
  split
  · simp
  · simp

/-- When the injected runner's `RunWithStdin` answers a recorded agent
invocation with an error, the `afterWorktree` tail stops with exactly
that wrapped agent error: no lint/test execution, no comment, no
commit. -/
lemma afterWorktree_agentFailure (w : Worker) (g : Caps) (pr : Int)
    (prInfo branch : String) (evs : List Event) (s c m : String) (args : List String)
    (hq : ∀ ev ∈ evs, earlyEvent ev)
    (hfail : g.runWithStdin s c args = Except.error m) :
    Event.runWithStdin s c args ∈ (afterWorktree w g pr prInfo branch evs).1 →
    (afterWorktree w g pr prInfo branch evs).2 = .err ("failed to run agent: " ++ m) ∧
    (∀ c2 a2, Event.runWithOutput c2 a2 ∉ (afterWorktree w g pr prInfo branch evs).1) ∧
    (∀ n b, Event.postComment n b ∉ (afterWorktree w g pr prInfo branch evs).1) ∧
    (∀ msg2, Event.commitAndPush msg2 ∉ (afterWorktree w g pr prInfo branch evs).1) := by
  unfold afterWorktree
  split
  · intro hmem; simp at hmem
    exact absurd (hq _ hmem) (by simp [earlyEvent])
  split
  · intro hmem; simp at hmem
    exact absurd (hq _ hmem) (by simp [earlyEvent])
  split
  · intro hmem; simp at hmem
    exact absurd (hq _ hmem) (by simp [earlyEvent])
  split
  · rename_i e heq
    intro hmem; simp at hmem
    rcases hmem with hmem | ⟨rfl, rfl, rfl⟩
    · exact absurd (hq _ hmem) (by simp [earlyEvent])
    · rw [heq] at hfail
      injection hfail with hme
      refine ⟨by simp [hme], ?_, ?_, ?_⟩
      · intro c2 a2 hc; simp at hc; exact absurd (hq _ hc) (by simp [earlyEvent])
      · intro n b hc; simp at hc; exact absurd (hq _ hc) (by simp [earlyEvent])
      · intro msg2 hc; simp at hc; exact absurd (hq _ hc) (by simp [earlyEvent])
  split
  · intro hmem; simp at hmem
    rcases hmem with hmem | ⟨rfl, rfl, rfl⟩ <;>
      first
        | exact absurd (hq _ hmem) (by simp [earlyEvent])
        | simp_all
  split
  · intro hmem; simp at hmem
    rcases hmem with hmem | ⟨rfl, rfl, rfl⟩ <;>
      first
        | exact absurd (hq _ hmem) (by simp [earlyEvent])
        | simp_all
  split
  · intro hmem; simp at hmem
    rcases hmem with hmem | ⟨rfl, rfl, rfl⟩ <;>
      first
        | exact absurd (hq _ hmem) (by simp [earlyEvent])
        | simp_all
  split
  · intro hmem; simp at hmem
    rcases hmem with hmem | ⟨rfl, rfl, rfl⟩ <;>
      first
        | exact absurd (hq _ hmem) (by simp [earlyEvent])
        | simp_all
  · intro hmem; simp at hmem
    rcases hmem with hmem | ⟨rfl, rfl, rfl⟩ <;>
      first
        | exact absurd (hq _ hmem) (by simp [earlyEvent])
        | simp_all

/-- When the hosting service answers a recorded comment post with an
error, the `afterWorktree` tail stops with exactly that wrapped
reporting error and never commits. -/
lemma afterWorktree_postCommentFailure (w : Worker) (g : Caps) (pr n : Int)
    (prInfo branch b m : String) (evs : List Event)
    (hq : ∀ ev ∈ evs, earlyEvent ev)
    (hpfail : g.postComment n b = Except.error m) :
    Event.postComment n b ∈ (afterWorktree w g pr prInfo branch evs).1 →
    (afterWorktree w g pr prInfo branch evs).2 = .err ("failed to post comment: " ++ m) ∧
    (∀ msg2, Event.commitAndPush msg2 ∉ (afterWorktree w g pr prInfo branch evs).1) := by
  unfold afterWorktree
  split
  · intro hmem; simp at hmem
    exact absurd (hq _ hmem) (by simp [earlyEvent])
  split
  · intro hmem; simp at hmem
    exact absurd (hq _ hmem) (by simp [earlyEvent])
  split
  · intro hmem; simp at hmem
    exact absurd (hq _ hmem) (by simp [earlyEvent])
  split
  · intro hmem; simp at hmem
    exact absurd (hq _ hmem) (by simp [earlyEvent])
  split
  · intro hmem; simp at hmem
    exact absurd (hq _ hmem) (by simp [earlyEvent])
  split
  · intro hmem; simp at hmem
    exact absurd (hq _ hmem) (by simp [earlyEvent])
  split
  · rename_i e heq
    intro hmem; simp at hmem
    rcases hmem with hmem | ⟨rfl, rfl⟩
    · exact absurd (hq _ hmem) (by simp [earlyEvent])
    · rw [heq] at hpfail
      injection hpfail with hme
      refine ⟨by simp [hme], ?_⟩
      intro msg2 hc; simp at hc; exact absurd (hq _ hc) (by simp [earlyEvent])
  split
  · intro hmem; simp at hmem
    rcases hmem with hmem | ⟨rfl, rfl⟩ <;>
      first
        | exact absurd (hq _ hmem) (by simp [earlyEvent])
        | simp_all
  · intro hmem; simp at hmem
    rcases hmem with hmem | ⟨rfl, rfl⟩ <;>
      first
        | exact absurd (hq _ hmem) (by simp [earlyEvent])
        | simp_all

/-- Once lint/test run (a `runWithOutput` event is in the trace) and the
configured lint and test vectors are the recorded ones, the tail posts
exactly one comment — the formatted lint/test report — and, when that
post succeeds, still commits. -/
lemma afterWorktree_checksReported (w : Worker) (g : Caps) (pr : Int)
    (prInfo branch lc tc : String) (largs targs : List String) (evs : List Event)
    (hq : ∀ ev ∈ evs, earlyEvent ev)
    (hlint : w.LintCommand = lc :: largs) (htest : w.TestCommand = tc :: targs) :
    ∀ c2 a2, Event.runWithOutput c2 a2 ∈ (afterWorktree w g pr prInfo branch evs).1 →
    ((afterWorktree w g pr prInfo branch evs).1.countP isPostCommentEv = 1 ∧
     Event.postComment pr
         (formatResultsComment (g.runWithOutput lc largs).1 (g.runWithOutput lc largs).2
           (g.runWithOutput tc targs).1 (g.runWithOutput tc targs).2) ∈
       (afterWorktree w g pr prInfo branch evs).1 ∧
     (g.postComment pr
         (formatResultsComment (g.runWithOutput lc largs).1 (g.runWithOutput lc largs).2
           (g.runWithOutput tc targs).1 (g.runWithOutput tc targs).2) = Except.ok () →
       Event.commitAndPush "Automated changes from kratt worker" ∈
         (afterWorktree w g pr prInfo branch evs).1)) := by
  unfold afterWorktree
  split
  · intro c2 a2 hmem; simp at hmem
    exact absurd (hq _ hmem) (by simp [earlyEvent])
  split
  · intro c2 a2 hmem; simp at hmem
    exact absurd (hq _ hmem) (by simp [earlyEvent])
  split
  · intro c2 a2 hmem; simp at hmem
    exact absurd (hq _ hmem) (by simp [earlyEvent])
  split
  · intro c2 a2 hmem; simp at hmem
    exact absurd (hq _ hmem) (by simp [earlyEvent])
  split
  · intro c2 a2 hmem; simp at hmem
    exact absurd (hq _ hmem) (by simp [earlyEvent])
  split
  · simp_all
  split
  · rename_i e heq
    intro c2 a2 hmem
    have h0 : evs.countP isPostCommentEv = 0 := countP_postComment_eq_zero evs hq
    simp_all [List.countP_append, List.countP_cons, isPostCommentEv]
  split
  · rename_i u heq
    intro c2 a2 hmem
    have h0 : evs.countP isPostCommentEv = 0 := countP_postComment_eq_zero evs hq
    simp_all [List.countP_append, List.countP_cons, isPostCommentEv]
  · intro c2 a2 hmem
    have h0 : evs.countP isPostCommentEv = 0 := countP_postComment_eq_zero evs hq
    simp_all [List.countP_append, List.countP_cons, isPostCommentEv]

/-! ### Marker and fencing properties of the results comment -/

lemma formatResults_lintFailed (lo tout e : String) (te : Option String) :
    Sub ("### Lint Results\n" ++ "❌ **Failed**\n")
      (formatResultsComment lo (some e) tout te) := by
  refine ⟨"## Kratt Worker Results\n\n".data,
    ("```\n" ++ e ++ "\n```\n" ++
      (if lo.length > 0 then "```\n" ++ lo ++ "\n```\n" else "") ++ "\n" ++
      checkSection "### Test Results\n" tout te).data, ?_⟩
  simp [formatResultsComment, checkSection, Sub, List.append_assoc]

lemma formatResults_lintPassed (lo tout : String) (te : Option String) :
    Sub ("### Lint Results\n" ++ "✅ **Passed**\n")
      (formatResultsComment lo none tout te) := by
  refine ⟨"## Kratt Worker Results\n\n".data,
    ((if lo.length > 0 then "```\n" ++ lo ++ "\n```\n" else "") ++ "\n" ++
      checkSection "### Test Results\n" tout te).data, ?_⟩
  simp [formatResultsComment, checkSection, Sub, List.append_assoc]

lemma formatResults_testFailed (lo tout e : String) (le : Option String) :
    Sub ("### Test Results\n" ++ "❌ **Failed**\n")
      (formatResultsComment lo le tout (some e)) := by
  refine ⟨("## Kratt Worker Results\n\n" ++ checkSection "### Lint Results\n" lo le ++
      "\n").data,
    ("```\n" ++ e ++ "\n```\n" ++
      (if tout.length > 0 then "```\n" ++ tout ++ "\n```\n" else "")).data, ?_⟩
  simp [formatResultsComment, checkSection, Sub, List.append_assoc]

lemma formatResults_testPassed (lo tout : String) (le : Option String) :
    Sub ("### Test Results\n" ++ "✅ **Passed**\n")
      (formatResultsComment lo le tout none) := by
  refine ⟨("## Kratt Worker Results\n\n" ++ checkSection "### Lint Results\n" lo le ++
      "\n").data,
    ((if tout.length > 0 then "```\n" ++ tout ++ "\n```\n" else "")).data, ?_⟩
  simp [formatResultsComment, checkSection, Sub, List.append_assoc]

lemma string_ne_length_pos (s : String) (h : s ≠ "") : 0 < s.length := by
  cases s with
  | mk data =>
    cases data with
    | nil => simp at h
    | cons c cs => simp [String.length]

lemma formatResults_lintOutputFenced (lo tout : String) (le te : Option String)
    (h : lo ≠ "") :
    Sub ("```\n" ++ lo ++ "\n```\n") (formatResultsComment lo le tout te) := by
  have hlen : lo.length > 0 := string_ne_length_pos lo h
  rcases le with _ | e
  · refine ⟨("## Kratt Worker Results\n\n" ++ "### Lint Results\n" ++
        "✅ **Passed**\n").data,
      ("\n" ++ checkSection "### Test Results\n" tout te).data, ?_⟩
    simp [formatResultsComment, checkSection, hlen, List.append_assoc]
  · refine ⟨("## Kratt Worker Results\n\n" ++ "### Lint Results\n" ++ "❌ **Failed**\n" ++
        "```\n" ++ e ++ "\n```\n").data,
      ("\n" ++ checkSection "### Test Results\n" tout te).data, ?_⟩
    simp [formatResultsComment, checkSection, hlen, List.append_assoc]

lemma formatResults_testOutputFenced (lo tout : String) (le te : Option String)
    (h : tout ≠ "") :
    Sub ("```\n" ++ tout ++ "\n```\n") (formatResultsComment lo le tout te) := by
  have hlen : tout.length > 0 := string_ne_length_pos tout h
  rcases te with _ | e
  · refine ⟨("## Kratt Worker Results\n\n" ++ checkSection "### Lint Results\n" lo le ++
        "\n" ++ "### Test Results\n" ++ "✅ **Passed**\n").data, ([] : List Char), ?_⟩
    simp [formatResultsComment, checkSection, hlen, List.append_assoc]
  · refine ⟨("## Kratt Worker Results\n\n" ++ checkSection "### Lint Results\n" lo le ++
        "\n" ++ "### Test Results\n" ++ "❌ **Failed**\n" ++ "```\n" ++ e ++
        "\n```\n").data, ([] : List Char), ?_⟩
    simp [formatResultsComment, checkSection, hlen, List.append_assoc]


/-- C1 -/
theorem processPR_agentFailureAborts (w : Worker) (g : Caps) (pr : Int)
    (s c m : String) (args : List String)
    (hmem : Event.runWithStdin s c args ∈ (processPR w g pr).1)
    (hfail : g.runWithStdin s c args = Except.error m) :
    (processPR w g pr).2 = .err ("failed to run agent: " ++ m) ∧
    (∀ c2 a2, Event.runWithOutput c2 a2 ∉ (processPR w g pr).1) ∧
    (∀ n b, Event.postComment n b ∉ (processPR w g pr).1) ∧
    (∀ msg2, Event.commitAndPush msg2 ∉ (processPR w g pr).1) := by
  revert hmem
  unfold processPR
  split
  · intro hmem; simp at hmem
  split
  · intro hmem; simp at hmem
  split
  · intro hmem; simp at hmem
  · exact afterWorktree_agentFailure w g pr _ _ _ s c m args (by simp [earlyEvent]) hfail
  split
  · intro hmem; simp at hmem
  split
  · intro hmem; simp at hmem
  · exact afterWorktree_agentFailure w g pr _ _ _ s c m args (by simp [earlyEvent]) hfail

/-- C1 witness -/
theorem processPR_agentFailureAborts_witness :
    (processPR wFix capsAgentFail 1).2 = .err ("failed to run agent: " ++ "agent boom") ∧
    (∀ c2 a2, Event.runWithOutput c2 a2 ∉ (processPR wFix capsAgentFail 1).1) ∧
    (∀ n b, Event.postComment n b ∉ (processPR wFix capsAgentFail 1).1) ∧
    (∀ msg2, Event.commitAndPush msg2 ∉ (processPR wFix capsAgentFail 1).1) :=
  processPR_agentFailureAborts wFix capsAgentFail 1
    "I\n\n<pull-request>\nbranch: b\n</pull-request>" "agent" "agent boom" []
    (by decide) (by rfl)


/-- C3 -/
theorem processPR_branchResolutionFailureAborts (w : Worker) (g : Caps) (pr : Int)
    (info e : String)
    (hinfo : g.getPRInfo pr = Except.ok info)
    (hex : extractBranchFromPRInfo info = Except.error e) :
    processPR w g pr =
      ([Event.getPRInfo pr], .err ("failed to extract branch from PR info: " ++ e)) := by
  unfold processPR
  rw [hinfo]
  simp [hex]

/-- C3 witness -/
theorem processPR_branchResolutionFailureAborts_witness :
    processPR wFix capsNoBranch 1 =
      ([Event.getPRInfo 1],
       .err ("failed to extract branch from PR info: " ++
         "could not extract branch name from PR info")) :=
  processPR_branchResolutionFailureAborts wFix capsNoBranch 1 "no extractable name"
    "could not extract branch name from PR info" (by rfl) (by rfl)

/-- C4 -/
theorem processPR_reportFailureAborts (w : Worker) (g : Caps) (pr n : Int)
    (b m : String)
    (hmem : Event.postComment n b ∈ (processPR w g pr).1)
    (hpfail : g.postComment n b = Except.error m) :
    (processPR w g pr).2 = .err ("failed to post comment: " ++ m) ∧
    (∀ msg2, Event.commitAndPush msg2 ∉ (processPR w g pr).1) := by
  revert hmem
  unfold processPR
  split
  · intro hmem; simp at hmem
  split
  · intro hmem; simp at hmem
  split
  · intro hmem; simp at hmem
  · exact afterWorktree_postCommentFailure w g pr n _ _ b m _ (by simp [earlyEvent]) hpfail
  split
  · intro hmem; simp at hmem
  split
  · intro hmem; simp at hmem
  · exact afterWorktree_postCommentFailure w g pr n _ _ b m _ (by simp [earlyEvent]) hpfail

/-- C4 witness -/
theorem processPR_reportFailureAborts_witness :
    (processPR wFix capsPostFail 1).2 = .err ("failed to post comment: " ++ "post boom") ∧
    (∀ msg2, Event.commitAndPush msg2 ∉ (processPR wFix capsPostFail 1).1) :=
  processPR_reportFailureAborts wFix capsPostFail 1 1
    (formatResultsComment "out" none "out" none) "post boom" (by decide) (by rfl)


lemma processPR_create_mem (w : Worker) (g : Caps) (pr : Int) (b p : String) :
    Event.createWorktree b p ∈ (processPR w g pr).1 →
    g.checkWorktreeExists b = Except.ok false ∧
    List.Sublist [Event.checkWorktreeExists b, Event.createWorktree b p]
      (processPR w g pr).1 := by
  unfold processPR
  split
  · intro hmem; simp at hmem
  split
  · intro hmem; simp at hmem
  split
  · intro hmem; simp at hmem
  · intro hmem
    obtain ⟨suf, hs, hl⟩ := afterWorktree_shape w g pr _ _ _
    rw [hs] at hmem
    simp at hmem
    exact absurd (hl _ hmem) (by simp [lateEvent])
  split
  · intro hmem; simp at hmem
  split
  · intro hmem; simp at hmem
    rcases hmem with ⟨rfl, rfl⟩
    refine ⟨by assumption, ?_⟩
    exact .cons _ (.cons₂ _ (.cons _ (.cons₂ _ .slnil)))
  · intro hmem
    obtain ⟨suf, hs, hl⟩ := afterWorktree_shape w g pr _ _ _
    rw [hs] at hmem
    simp at hmem
    rcases hmem with ⟨rfl, rfl⟩ | hmem
    · refine ⟨by assumption, ?_⟩
      rw [hs]
      exact List.Sublist.trans
        (.cons _ (.cons₂ _ (.cons _ (.cons₂ _ .slnil))))
        (List.sublist_append_left _ _)
    · exact absurd (hl _ hmem) (by simp [lateEvent])


lemma processPR_create_count (w : Worker) (g : Caps) (pr : Int) :
    (processPR w g pr).1.countP isCreateWorktreeEv ≤ 1 := by
  unfold processPR
  split
  · simp [List.countP_cons, isCreateWorktreeEv]
  split
  · simp [List.countP_cons, isCreateWorktreeEv]
  split
  · simp [List.countP_cons, isCreateWorktreeEv]
  · obtain ⟨suf, hs, hl⟩ := afterWorktree_shape w g pr _ _ _
    rw [hs, List.countP_append, countP_createWorktree_eq_zero suf hl]
    simp [List.countP_cons, isCreateWorktreeEv]
  split
  · simp [List.countP_cons, isCreateWorktreeEv]
  split
  · simp [List.countP_cons, isCreateWorktreeEv]
  · obtain ⟨suf, hs, hl⟩ := afterWorktree_shape w g pr _ _ _
    rw [hs, List.countP_append, countP_createWorktree_eq_zero suf hl]
    simp [List.countP_cons, isCreateWorktreeEv]

lemma processPR_starts_check (w : Worker) (g : Caps) (pr : Int) (info b : String)
    (hinfo : g.getPRInfo pr = Except.ok info)
    (hex : extractBranchFromPRInfo info = Except.ok b) :
    [Event.getPRInfo pr, Event.checkWorktreeExists b] <+: (processPR w g pr).1 := by
  unfold processPR
  simp only [hinfo, hex]
  split
  · exact ⟨[], rfl⟩
  · obtain ⟨suf, hs, hl⟩ := afterWorktree_shape w g pr _ _ _
    rw [hs]
    exact ⟨suf, rfl⟩
  split
  · exact ⟨_, rfl⟩
  split
  · exact ⟨_, rfl⟩
  · obtain ⟨suf, hs, hl⟩ := afterWorktree_shape w g pr _ _ _
    rw [hs]
    exact ⟨_, rfl⟩


/-- C5 -/
theorem processPR_worktreeDiscipline (w : Worker) (g : Caps) (pr : Int) :
    (processPR w g pr).1.countP isCreateWorktreeEv ≤ 1 ∧
    (∀ info b, g.getPRInfo pr = Except.ok info →
      extractBranchFromPRInfo info = Except.ok b →
      [Event.getPRInfo pr, Event.checkWorktreeExists b] <+: (processPR w g pr).1) ∧
    (∀ b p, Event.createWorktree b p ∈ (processPR w g pr).1 →
      g.checkWorktreeExists b = Except.ok false ∧
      List.Sublist [Event.checkWorktreeExists b, Event.createWorktree b p]
        (processPR w g pr).1) ∧
    (∀ b, g.checkWorktreeExists b = Except.ok true →
      ∀ p, Event.createWorktree b p ∉ (processPR w g pr).1) :=
  ⟨processPR_create_count w g pr,
   fun info b hinfo hex => processPR_starts_check w g pr info b hinfo hex,
   fun b p h => processPR_create_mem w g pr b p h,
   fun b htrue p h => by
     have := (processPR_create_mem w g pr b p h).1
     rw [htrue] at this
     exact absurd this (by simp)⟩

/-- C5 witness -/
theorem processPR_worktreeDiscipline_witness :
    (processPR wFix capsOk 1).1.countP isCreateWorktreeEv ≤ 1 ∧
    ([Event.getPRInfo 1, Event.checkWorktreeExists "b"] <+: (processPR wFix capsOk 1).1) ∧
    (capsOk.checkWorktreeExists "b" = Except.ok false ∧
      List.Sublist [Event.checkWorktreeExists "b", Event.createWorktree "b" "/wt"]
        (processPR wFix capsOk 1).1) ∧
    (∀ p, Event.createWorktree "b" p ∉ (processPR wFix capsWorktreeExists 1).1) :=
  ⟨(processPR_worktreeDiscipline wFix capsOk 1).1,
   (processPR_worktreeDiscipline wFix capsOk 1).2.1 "branch: b" "b" (by rfl) (by rfl),
   (processPR_worktreeDiscipline wFix capsOk 1).2.2.1 "b" "/wt" (by decide),
   (processPR_worktreeDiscipline wFix capsWorktreeExists 1).2.2.2 "b" (by rfl)⟩

/-- C9 -/
theorem processPR_commandIndexing :
    (∀ (w : Worker) (g : Caps) (pr : Int),
      w.AgentCommand ≠ [] → w.LintCommand ≠ [] → w.TestCommand ≠ [] →
      (processPR w g pr).2 ≠ .panicked) ∧
    (processPR wEmptyAgent capsOk 1).2 = .panicked ∧
    (processPR wEmptyLint capsOk 1).2 = .panicked ∧
    (processPR wEmptyTest capsOk 1).2 = .panicked := by
  refine ⟨?_, by rfl, by rfl, by rfl⟩
  intro w g pr hA hL hT
  unfold processPR
  split
  · simp
  split
  · simp
  split
  · simp
  · exact afterWorktree_noPanic w g pr _ _ _ hA hL hT
  split
  · simp
  split
  · simp
  · exact afterWorktree_noPanic w g pr _ _ _ hA hL hT

/-- C9 witness -/
theorem processPR_commandIndexing_witness :
    (processPR wFix capsOk 1).2 ≠ .panicked :=
  processPR_commandIndexing.1 wFix capsOk 1 (by decide) (by decide) (by decide)


/-- C2 -/
theorem processPR_checkFailuresReported (w : Worker) (g : Caps) (pr : Int)
    (lc tc : String) (largs targs : List String)
    (hlint : w.LintCommand = lc :: largs) (htest : w.TestCommand = tc :: targs)
    (c2 : String) (a2 : List String)
    (hmem : Event.runWithOutput c2 a2 ∈ (processPR w g pr).1) :
    ((processPR w g pr).1.countP isPostCommentEv = 1 ∧
     Event.postComment pr (runBody g lc largs tc targs) ∈ (processPR w g pr).1 ∧
     (g.postComment pr (runBody g lc largs tc targs) = Except.ok () →
       Event.commitAndPush "Automated changes from kratt worker" ∈ (processPR w g pr).1)) ∧
    ((∀ e, (g.runWithOutput lc largs).2 = some e →
       Sub ("### Lint Results\n" ++ "❌ **Failed**\n") (runBody g lc largs tc targs)) ∧
     ((g.runWithOutput lc largs).2 = none →
       Sub ("### Lint Results\n" ++ "✅ **Passed**\n") (runBody g lc largs tc targs)) ∧
     (∀ e, (g.runWithOutput tc targs).2 = some e →
       Sub ("### Test Results\n" ++ "❌ **Failed**\n") (runBody g lc largs tc targs)) ∧
     ((g.runWithOutput tc targs).2 = none →
       Sub ("### Test Results\n" ++ "✅ **Passed**\n") (runBody g lc largs tc targs)) ∧
     ((g.runWithOutput lc largs).1 ≠ "" →
       Sub ("```\n" ++ (g.runWithOutput lc largs).1 ++ "\n```\n")
         (runBody g lc largs tc targs)) ∧
     ((g.runWithOutput tc targs).1 ≠ "" →
       Sub ("```\n" ++ (g.runWithOutput tc targs).1 ++ "\n```\n")
         (runBody g lc largs tc targs))) := by
  constructor
  · revert hmem
    unfold processPR
    split
    · intro hmem; simp at hmem
    split
    · intro hmem; simp at hmem
    split
    · intro hmem; simp at hmem
    · exact afterWorktree_checksReported w g pr _ _ lc tc largs targs _
        (by simp [earlyEvent]) hlint htest c2 a2
    split
    · intro hmem; simp at hmem
    split
    · intro hmem; simp at hmem
    · exact afterWorktree_checksReported w g pr _ _ lc tc largs targs _
        (by simp [earlyEvent]) hlint htest c2 a2
  · refine ⟨?_, ?_, ?_, ?_, ?_, ?_⟩
    · intro e he; unfold runBody; rw [he]; exact formatResults_lintFailed _ _ _ _
    · intro he; unfold runBody; rw [he]; exact formatResults_lintPassed _ _ _
    · intro e he; unfold runBody; rw [he]; exact formatResults_testFailed _ _ _ _
    · intro he; unfold runBody; rw [he]; exact formatResults_testPassed _ _ _
    · intro h; exact formatResults_lintOutputFenced _ _ _ _ h
    · intro h; exact formatResults_testOutputFenced _ _ _ _ h


/-- C2 witness -/
theorem processPR_checkFailuresReported_witness :
    ((processPR wFix capsLintFail 1).1.countP isPostCommentEv = 1 ∧
     Event.postComment 1 (runBody capsLintFail "lint" [] "test" []) ∈
       (processPR wFix capsLintFail 1).1 ∧
     (capsLintFail.postComment 1 (runBody capsLintFail "lint" [] "test" []) =
         Except.ok () →
       Event.commitAndPush "Automated changes from kratt worker" ∈
         (processPR wFix capsLintFail 1).1)) ∧
    ((∀ e, (capsLintFail.runWithOutput "lint" []).2 = some e →
       Sub ("### Lint Results\n" ++ "❌ **Failed**\n")
         (runBody capsLintFail "lint" [] "test" [])) ∧
     ((capsLintFail.runWithOutput "lint" []).2 = none →
       Sub ("### Lint Results\n" ++ "✅ **Passed**\n")
         (runBody capsLintFail "lint" [] "test" [])) ∧
     (∀ e, (capsLintFail.runWithOutput "test" []).2 = some e →
       Sub ("### Test Results\n" ++ "❌ **Failed**\n")
         (runBody capsLintFail "lint" [] "test" [])) ∧
     ((capsLintFail.runWithOutput "test" []).2 = none →
       Sub ("### Test Results\n" ++ "✅ **Passed**\n")
         (runBody capsLintFail "lint" [] "test" [])) ∧
     ((capsLintFail.runWithOutput "lint" []).1 ≠ "" →
       Sub ("```\n" ++ (capsLintFail.runWithOutput "lint" []).1 ++ "\n```\n")
         (runBody capsLintFail "lint" [] "test" [])) ∧
     ((capsLintFail.runWithOutput "test" []).1 ≠ "" →
       Sub ("```\n" ++ (capsLintFail.runWithOutput "test" []).1 ++ "\n```\n")
         (runBody capsLintFail "lint" [] "test" []))) :=
  processPR_checkFailuresReported wFix capsLintFail 1 "lint" "test" [] []
    (by rfl) (by rfl) "lint" [] (by decide)


/-- C6 -/
theorem gitCommitAndPush_noChanges (e : GitCmdEnv) (message statusOut : String)
    (hadd : e.run ["git", "add", "."] = Except.ok ())
    (hstat : e.output ["git", "status", "--porcelain"] = Except.ok statusOut)
    (hempty : goTrimSpace statusOut = "") :
    gitCommitAndPush e message =
      ([["git", "add", "."], ["git", "status", "--porcelain"]], Except.ok ()) := by
  unfold gitCommitAndPush
  simp [hadd, hstat, hempty]

/-- C6 witness -/
theorem gitCommitAndPush_noChanges_witness :
    gitCommitAndPush (gitEnvOutput "  \n\t ") "msg" =
      ([["git", "add", "."], ["git", "status", "--porcelain"]], Except.ok ()) :=
  gitCommitAndPush_noChanges (gitEnvOutput "  \n\t ") "msg" "  \n\t "
    (by rfl) (by rfl) (by rfl)

lemma containsSub_iff (s t : List Char) : containsSub s t = true ↔ t <:+: s := by
  unfold containsSub
  rw [List.any_eq_true]
  constructor
  · rintro ⟨suffix, hsuf, hpre⟩
    rw [List.mem_tails] at hsuf
    rw [List.isPrefixOf_iff_prefix] at hpre
    exact List.infix_iff_prefix_suffix.mpr ⟨suffix, hpre, hsuf⟩
  · intro h
    obtain ⟨tmid, hpre, hsuf⟩ := List.infix_iff_prefix_suffix.mp h
    exact ⟨tmid, (List.mem_tails _ _).mpr hsuf, List.isPrefixOf_iff_prefix.mpr hpre⟩

/-- C10 -/
theorem gitCheckWorktreeExists_substringMatch (e : GitCmdEnv) (branch listing : String)
    (hout : e.output ["git", "worktree", "list", "--porcelain"] = Except.ok listing) :
    ((gitCheckWorktreeExists e branch).2 = Except.ok true ↔
      ∃ line ∈ splitOnChar newlineChar listing.data,
        "branch ".data <+: line ∧ branch.data <:+: line) ∧
    (gitCheckWorktreeExists
        (gitEnvOutput "worktree /w/repo-feature-2\nHEAD abc\nbranch refs/heads/feature-2\n")
        "feature").2 = Except.ok true := by
  constructor
  · unfold gitCheckWorktreeExists
    rw [hout]
    show Except.ok (worktreeListingHasBranch listing branch) = Except.ok true ↔ _
    simp [worktreeListingHasBranch, worktreeLineMatches, List.any_eq_true,
      Bool.and_eq_true, containsSub_iff, List.isPrefixOf_iff_prefix]
  · rfl

/-- C10 witness -/
theorem gitCheckWorktreeExists_substringMatch_witness :
    ((gitCheckWorktreeExists (gitEnvOutput "branch refs/heads/feature-2") "feature").2 =
        Except.ok true ↔
      ∃ line ∈ splitOnChar newlineChar ("branch refs/heads/feature-2").data,
        "branch ".data <+: line ∧ ("feature").data <:+: line) ∧
    (gitCheckWorktreeExists
        (gitEnvOutput "worktree /w/repo-feature-2\nHEAD abc\nbranch refs/heads/feature-2\n")
        "feature").2 = Except.ok true :=
  gitCheckWorktreeExists_substringMatch (gitEnvOutput "branch refs/heads/feature-2")
    "feature" "branch refs/heads/feature-2" (by rfl)

/-- C8 -/
theorem gitGetGitHubRepository_parsing (e : GitCmdEnv) (u : String)
    (hout : e.output ["git", "remote", "get-url", "origin"] = Except.ok u) :
    (goTrimSpace u = "git@github.com:acme/widgets.git" →
      (gitGetGitHubRepository e).2 = Except.ok ("acme", "widgets")) ∧
    (goTrimSpace u = "https://github.com/acme/widgets.git" →
      (gitGetGitHubRepository e).2 = Except.ok ("acme", "widgets")) ∧
    (∀ v, goTrimSpace u = v → "git@github.com:".data.isPrefixOf v.data = false →
      (urlHostPath v).1 ≠ "github.com" →
      (gitGetGitHubRepository e).2 =
        Except.error ("not a GitHub repository: " ++ v)) := by
  refine ⟨?_, ?_, ?_⟩
  · intro h
    unfold gitGetGitHubRepository
    rw [hout]
    show resolveGitHubRemote (goTrimSpace u) = _
    rw [h]
    rfl
  · intro h
    unfold gitGetGitHubRepository
    rw [hout]
    show resolveGitHubRemote (goTrimSpace u) = _
    rw [h]
    rfl
  · intro v hv hssh hhost
    unfold gitGetGitHubRepository
    rw [hout]
    show resolveGitHubRemote (goTrimSpace u) = _
    rw [hv]
    unfold resolveGitHubRemote
    simp [hssh, hhost]

/-- C8 witness -/
theorem gitGetGitHubRepository_parsing_witness :
    (gitGetGitHubRepository (gitEnvOutput "git@github.com:acme/widgets.git")).2 =
      Except.ok ("acme", "widgets") ∧
    (gitGetGitHubRepository (gitEnvOutput "https://github.com/acme/widgets.git")).2 =
      Except.ok ("acme", "widgets") ∧
    (gitGetGitHubRepository (gitEnvOutput "https://gitlab.com/acme/widgets.git")).2 =
      Except.error ("not a GitHub repository: " ++ "https://gitlab.com/acme/widgets.git") :=
  ⟨(gitGetGitHubRepository_parsing (gitEnvOutput "git@github.com:acme/widgets.git")
      "git@github.com:acme/widgets.git" (by rfl)).1 (by rfl),
   (gitGetGitHubRepository_parsing (gitEnvOutput "https://github.com/acme/widgets.git")
      "https://github.com/acme/widgets.git" (by rfl)).2.1 (by rfl),
   (gitGetGitHubRepository_parsing (gitEnvOutput "https://gitlab.com/acme/widgets.git")
      "https://gitlab.com/acme/widgets.git" (by rfl)).2.2
      "https://gitlab.com/acme/widgets.git" (by rfl) (by rfl) (by decide)⟩


/-- C7 -/
theorem start_featureX (g : Caps) :
    (g.createBranch "feature/x" = Except.ok () →
     g.writeFile "docs/feature/x-instructions.md" "do thing" = Except.ok () →
     g.commitAndPush "Add instructions for feature/x" = Except.ok () →
     g.pushBranchUpstream "feature/x" = Except.ok () →
     g.createPR "Implement feature/x"
         "Study docs/feature/x-instructions.md and make a list of necessary implementation steps in docs/feature/x-implementation-status.md" =
       Except.ok () →
     start g "feature/x" "do thing" =
       ([Event.createBranch "feature/x",
         Event.writeFile "docs/feature/x-instructions.md" "do thing",
         Event.commitAndPush "Add instructions for feature/x",
         Event.pushBranchUpstream "feature/x",
         Event.createPR "Implement feature/x"
           "Study docs/feature/x-instructions.md and make a list of necessary implementation steps in docs/feature/x-implementation-status.md"],
        RunResult.ok)) ∧
    Sub "docs/feature/x-instructions.md"
      "Study docs/feature/x-instructions.md and make a list of necessary implementation steps in docs/feature/x-implementation-status.md" ∧
    Sub "docs/feature/x-implementation-status.md"
      "Study docs/feature/x-instructions.md and make a list of necessary implementation steps in docs/feature/x-implementation-status.md" ∧
    (∀ m, g.createBranch "feature/x" = Except.error m →
      start g "feature/x" "do thing" =
        ([Event.createBranch "feature/x"], .err ("failed to create branch: " ++ m))) ∧
    (∀ m, g.createBranch "feature/x" = Except.ok () →
      g.writeFile "docs/feature/x-instructions.md" "do thing" = Except.error m →
      start g "feature/x" "do thing" =
        ([Event.createBranch "feature/x",
          Event.writeFile "docs/feature/x-instructions.md" "do thing"],
         .err ("failed to write instructions file: " ++ m))) ∧
    (∀ m, g.createBranch "feature/x" = Except.ok () →
      g.writeFile "docs/feature/x-instructions.md" "do thing" = Except.ok () →
      g.commitAndPush "Add instructions for feature/x" = Except.error m →
      start g "feature/x" "do thing" =
        ([Event.createBranch "feature/x",
          Event.writeFile "docs/feature/x-instructions.md" "do thing",
          Event.commitAndPush "Add instructions for feature/x"],
         .err ("failed to commit instructions file: " ++ m))) ∧
    (∀ m, g.createBranch "feature/x" = Except.ok () →
      g.writeFile "docs/feature/x-instructions.md" "do thing" = Except.ok () →
      g.commitAndPush "Add instructions for feature/x" = Except.ok () →
      g.pushBranchUpstream "feature/x" = Except.error m →
      start g "feature/x" "do thing" =
        ([Event.createBranch "feature/x",
          Event.writeFile "docs/feature/x-instructions.md" "do thing",
          Event.commitAndPush "Add instructions for feature/x",
          Event.pushBranchUpstream "feature/x"],
         .err ("failed to push branch upstream: " ++ m))) ∧
    (∀ m, g.createBranch "feature/x" = Except.ok () →
      g.writeFile "docs/feature/x-instructions.md" "do thing" = Except.ok () →
      g.commitAndPush "Add instructions for feature/x" = Except.ok () →
      g.pushBranchUpstream "feature/x" = Except.ok () →
      g.createPR "Implement feature/x"
          "Study docs/feature/x-instructions.md and make a list of necessary implementation steps in docs/feature/x-implementation-status.md" =
        Except.error m →
      start g "feature/x" "do thing" =
        ([Event.createBranch "feature/x",
          Event.writeFile "docs/feature/x-instructions.md" "do thing",
          Event.commitAndPush "Add instructions for feature/x",
          Event.pushBranchUpstream "feature/x",
          Event.createPR "Implement feature/x"
            "Study docs/feature/x-instructions.md and make a list of necessary implementation steps in docs/feature/x-implementation-status.md"],
         .err ("failed to create pull request: " ++ m))) := by
  refine ⟨?_, ?_, ?_, ?_, ?_, ?_, ?_, ?_⟩
  · intro h1 h2 h3 h4 h5
    simp [start, h1, h2, h3, h4, h5]
  · exact ⟨"Study ".data,
      " and make a list of necessary implementation steps in docs/feature/x-implementation-status.md".data,
      by rfl⟩
  · exact ⟨"Study docs/feature/x-instructions.md and make a list of necessary implementation steps in ".data,
      [], by rfl⟩
  · intro m h1
    simp [start, h1]
  · intro m h1 h2
    simp [start, h1, h2]
  · intro m h1 h2 h3
    simp [start, h1, h2, h3]
  · intro m h1 h2 h3 h4
    simp [start, h1, h2, h3, h4]
  · intro m h1 h2 h3 h4 h5
    simp [start, h1, h2, h3, h4, h5]

/-- C7 witness -/
theorem start_featureX_witness :
    start capsOk "feature/x" "do thing" =
      ([Event.createBranch "feature/x",
        Event.writeFile "docs/feature/x-instructions.md" "do thing",
        Event.commitAndPush "Add instructions for feature/x",
        Event.pushBranchUpstream "feature/x",
        Event.createPR "Implement feature/x"
          "Study docs/feature/x-instructions.md and make a list of necessary implementation steps in docs/feature/x-implementation-status.md"],
       RunResult.ok) :=
  (start_featureX capsOk).1 (by rfl) (by rfl) (by rfl) (by rfl) (by rfl)

end Kratt
